import Mathlib

/-!
Shallow embedding of the elastic-cloud-billing-mcp core (src/config.py and
src/elastic_client.py) and proofs about its specification claims.

Conventions of the embedding:
* Python strings are Lean `String`; Python `None`-able strings are `Option String`.
* `os.listdir` and the per-account `.env` loader are modelled as a pure
  environment record (`ConfigEnv`): `listdir` is the one directory read the
  code performs, `loadEnv` models `Settings(_env_file=...)` construction,
  returning the `(elastic_api_key, elastic_org_id)` pair or a load error.
* The HTTP layer is a pure oracle (`Gateway`): a function from the
  authorization header, endpoint and query parameters to the parsed response.
  `ApiResp.idField` models `response.json().get("id")`; `raw` is the parsed
  body passed through unmodified.
* The `alru_cache` decorators are modelled by `cacheStep`: an LRU list of
  (key, value, insertion-time) entries with a maximum size and an optional
  time-to-live, exactly mirroring `maxsize`/`ttl` of each decorated method.
  Every operation takes the current time `now : Nat` (seconds) explicitly and
  returns a `Res`: the value, the successor client state, and the list of
  network requests the call performed.
* Python's leading-underscore method names drop the underscore
  (`_cached_billing_request` becomes `cached_billing_request`, etc.).
-/

/-- A timezone-aware Python datetime: `wall` is the displayed wall-clock time
in seconds since the epoch as read naively, `offset` the UTC offset in
seconds, so the denoted UTC instant is `wall - offset`. -/
structure PyDatetime where
  wall : Int
  offset : Int
deriving DecidableEq

/-- The UTC instant a datetime denotes (seconds since the epoch). -/
def instant (d : PyDatetime) : Int := d.wall - d.offset

/-- Model of `d.astimezone(ZoneInfo("UTC"))`: same instant, offset zero. -/
def astimezoneUTC (d : PyDatetime) : PyDatetime := { wall := instant d, offset := 0 }

/-- Two-digit zero padding used by ISO-8601 rendering. -/
def pad2 (n : Nat) : String := if n < 10 then "0" ++ toString n else toString n

/-- Four-digit zero padding for the year field. -/
def pad4 (n : Nat) : String :=
  if n < 10 then "000" ++ toString n
  else if n < 100 then "00" ++ toString n
  else if n < 1000 then "0" ++ toString n
  else toString n

/-- Civil date (year, month, day) from days since 1970-01-01. -/
def civilFromDays (z0 : Int) : Int × Nat × Nat :=
  let z := z0 + 719468
  let era := z.ediv 146097
  let doe := (z.emod 146097).toNat
  let yoe := (doe - doe / 1460 + doe / 36524 - doe / 146096) / 365
  let y := (yoe : Int) + era * 400
  let doy := doe - (365 * yoe + yoe / 4 - yoe / 100)
  let mp := (5 * doy + 2) / 153
  let d := doy - (153 * mp + 2) / 5 + 1
  let m := if mp < 10 then mp + 3 else mp - 9
  (y + (if m ≤ 2 then 1 else 0), m, d)

/-- Rendering of a UTC offset as `+HH:MM` / `-HH:MM`. -/
def offsetStr (o : Int) : String :=
  (if o < 0 then "-" else "+") ++ pad2 (o.natAbs / 3600) ++ ":" ++ pad2 (o.natAbs % 3600 / 60)

/-- Model of `datetime.isoformat()` at whole-second resolution. -/
def isoformat (d : PyDatetime) : String :=
  let days := d.wall.ediv 86400
  let secs := (d.wall.emod 86400).toNat
  let c := civilFromDays days
  let yStr := if c.1 < 0 then "-" ++ pad4 c.1.natAbs else pad4 c.1.toNat
  yStr ++ "-" ++ pad2 c.2.1 ++ "-" ++ pad2 c.2.2 ++ "T" ++
    pad2 (secs / 3600) ++ ":" ++ pad2 (secs % 3600 / 60) ++ ":" ++ pad2 (secs % 60) ++
    offsetStr d.offset

/-- Python character-level `s.startswith(p)`. -/
def strStartsWith (s p : String) : Bool := p.data.isPrefixOf s.data

/-- Python character-level slice `s[n:]`. -/
def strDrop (s : String) (n : Nat) : String := String.mk (s.data.drop n)

/-- Result of `available_accounts()` in config.py: either the
`{"accounts": [...]}` dict or the `{"error": ...}` dict. -/
inductive AccountsResult where
  | ok (accounts : List String)
  | err (msg : String)
deriving DecidableEq

/-- `available_accounts()` from config.py: lists the accounts directory and
derives an account name from every filename starting with `.env.`; on a
directory-read failure it returns the error descriptor instead of raising. -/
def available_accounts (listdir : Except String (List String)) : AccountsResult :=
  match listdir with
  | .ok files =>
      .ok ((files.filter (fun f => strStartsWith f ".env.")).map (fun f => strDrop f 5))
  | .error e => .err ("Failed to list accounts: " ++ e)

/-- Model of `.get("accounts", [])` on the dict `available_accounts` returns. -/
def accountsOf : AccountsResult → List String
  | .ok l => l
  | .err _ => []

/-- Errors of credential resolution in config.py (both are `ValueError`s in
the source; the constructors record which message was raised). -/
inductive CredError where
  | accountNotFound (account : String)
  | loadError (account : String) (msg : String)
deriving DecidableEq

/-- The filesystem/configuration environment the config module reads:
`listdir` is the result of `os.listdir(accounts_dir)`, `loadEnv account`
models `Settings(_env_file=accounts_dir/.env.account)` and yields the
`(elastic_api_key, elastic_org_id)` pair or a load failure. -/
structure ConfigEnv where
  listdir : Except String (List String)
  loadEnv : String → Except String (String × Option String)

/-- `Settings.get_account_credentials` from config.py: the account must be in
the `available_accounts` listing (an error listing yields the empty list via
`.get("accounts", [])`), then the account's env file is loaded; a load
failure raises the could-not-load `ValueError`. -/
def get_account_credentials (env : ConfigEnv) (account : String) :
    Except CredError (String × Option String) :=
  if account ∈ accountsOf (available_accounts env.listdir) then
    match env.loadEnv account with
    | .ok creds => .ok creds
    | .error e => .error (.loadError account e)
  else
    .error (.accountNotFound account)

/-- A parsed JSON response of the general API: `idField` models
`result.get("id")`, `raw` stands for the whole parsed body. -/
structure ApiResp where
  idField : Option String
  raw : String
deriving DecidableEq

/-- The pure network oracle: responses of the two HTTP hosts as functions of
the authorization header, the endpoint path, and the query parameters. -/
structure Gateway where
  api : String → String → Option (List (String × String)) → ApiResp
  billing : String → String → List (String × String) → String

/-- A network request an operation performed (header, endpoint, params). -/
inductive Req where
  | api (header : String) (endpoint : String) (params : Option (List (String × String)))
  | billing (header : String) (endpoint : String) (params : List (String × String))
deriving DecidableEq

/-- The mutable fields of `ElasticCloudClient` plus the three `alru_cache`
stores of its decorated methods (key, cached value, insertion time). -/
structure ClientState where
  account : String
  api_key : String
  org_id : Option String
  account_id : Option String
  authHeader : String
  deploymentsCache : List (Option String × ApiResp × Nat)
  deploymentCache : List (String × ApiResp × Nat)
  billingCache : List ((String × Option String × Option String) × String × Nat)
deriving DecidableEq

/-- Result of one client operation: returned value, successor state, and the
network requests issued during the call. -/
structure Res (α : Type) where
  value : α
  state : ClientState
  reqs : List Req
deriving DecidableEq

/-- Whether a cache entry inserted at time `t` is still valid at `now` under
the cache's optional time-to-live. -/
def validEntry (ttl : Option Nat) (t now : Nat) : Bool :=
  match ttl with
  | none => true
  | some d => decide (now < t + d)

/-- One `alru_cache` access: on a valid hit return the stored value (moved to
the front, no request); on an expired entry or a miss compute the fresh
value, store it at the front and truncate to `maxsize` (one request). The
returned boolean records whether the underlying call ran. -/
def cacheStep {κ α : Type} [DecidableEq κ] (maxsize : Nat) (ttl : Option Nat)
    (entries : List (κ × α × Nat)) (k : κ) (now : Nat) (fresh : α) :
    α × List (κ × α × Nat) × Bool :=
  match entries.find? (fun e => decide (e.1 = k)) with
  | some hit =>
      if validEntry ttl hit.2.2 now then
        (hit.2.1, (k, hit.2.1, hit.2.2) :: entries.filter (fun e2 => decide (e2.1 ≠ k)), false)
      else
        (fresh, ((k, fresh, now) :: entries.filter (fun e2 => decide (e2.1 ≠ k))).take maxsize,
          true)
  | none => (fresh, ((k, fresh, now) :: entries).take maxsize, true)

/-- Python truthiness-based `a or b` on optional strings (`None` and the
empty string are falsy). -/
def pyOrOpt (a b : Option String) : Option String :=
  match a with
  | some s => if s = "" then b else some s
  | none => b

/-- Python f-string rendering of an optional string: `None` prints as the
literal `"None"`. -/
def pyStrOpt : Option String → String
  | none => "None"
  | some s => s

/-- `ElasticCloudClient.__init__`: resolves the account's credentials (the
source indexes the same pure resolution twice), applies `or None` to the
org id, builds the authorization header, and starts with no resolved
account id and empty caches. A resolution failure propagates. -/
def initClient (env : ConfigEnv) (account : String) : Except CredError ClientState :=
  match get_account_credentials env account with
  | .error e => .error e
  | .ok creds =>
      .ok { account := account
            api_key := creds.1
            org_id := pyOrOpt creds.2 none
            account_id := none
            authHeader := "ApiKey " ++ creds.1
            deploymentsCache := []
            deploymentCache := []
            billingCache := [] }

/-- The error `switch_account` raises: a `ValueError` chained from the
credential-resolution failure that caused it. -/
inductive SwitchError where
  | couldNotSwitch (account : String) (cause : CredError)
deriving DecidableEq

/-- `ElasticCloudClient.switch_account`: resolve the new account's
credentials; only on success replace key, org id, account name and
authorization header and reset the lazily-resolved account id. The
`alru_cache` stores are not touched. On failure the state is returned
unchanged and the wrapped error is raised. -/
def switch_account (env : ConfigEnv) (st : ClientState) (account : String) :
    Except SwitchError Unit × ClientState :=
  match get_account_credentials env account with
  | .ok creds =>
      (.ok (), { st with
        api_key := creds.1
        org_id := creds.2
        account := account
        authHeader := "ApiKey " ++ creds.1
        account_id := none })
  | .error e => (.error (.couldNotSwitch account e), st)

/-- `params` dict built by `_cached_billing_request`: `from`/`to` are added
only when the corresponding iso string is truthy. -/
def billingParams (s e : Option String) : List (String × String) :=
  (match s with
   | some x => if x = "" then [] else [("from", x)]
   | none => []) ++
  (match e with
   | some x => if x = "" then [] else [("to", x)]
   | none => [])

/-- `ElasticCloudClient._cached_billing_request`: `alru_cache(maxsize=128)`
(no ttl) keyed by `(endpoint, startdate_iso, enddate_iso)`; on a miss it
performs one billing request with the built params. -/
def cached_billing_request (gw : Gateway) (now : Nat) (st : ClientState)
    (endpoint : String) (s e : Option String) : Res String :=
  let params := billingParams s e
  let fresh := gw.billing st.authHeader endpoint params
  let step := cacheStep 128 none st.billingCache (endpoint, s, e) now fresh
  { value := step.1
    state := { st with billingCache := step.2.1 }
    reqs := if step.2.2 then [Req.billing st.authHeader endpoint params] else [] }

/-- `ElasticCloudClient._get_deployments_cached`:
`alru_cache(maxsize=32, ttl=300)` keyed by the `org_id` argument; a present
org id becomes the `q=organization_id:...` filter. -/
def get_deployments_cached (gw : Gateway) (now : Nat) (st : ClientState)
    (org_id : Option String) : Res ApiResp :=
  let params : Option (List (String × String)) :=
    match org_id with
    | none => none
    | some o => some [("q", "organization_id:" ++ o)]
  let fresh := gw.api st.authHeader "/api/v1/deployments" params
  let step := cacheStep 32 (some 300) st.deploymentsCache org_id now fresh
  { value := step.1
    state := { st with deploymentsCache := step.2.1 }
    reqs := if step.2.2 then [Req.api st.authHeader "/api/v1/deployments" params] else [] }

/-- `ElasticCloudClient.get_deployments`: delegates to the cached listing
with the current account's stored `org_id`. -/
def get_deployments (gw : Gateway) (now : Nat) (st : ClientState) : Res ApiResp :=
  get_deployments_cached gw now st st.org_id

/-- `ElasticCloudClient.get_deployment`: `alru_cache(maxsize=32, ttl=300)`
keyed by the deployment id; endpoint `/api/v1/deployments/{id}`, no params. -/
def get_deployment (gw : Gateway) (now : Nat) (st : ClientState)
    (deployment_id : String) : Res ApiResp :=
  let endpoint := "/api/v1/deployments/" ++ deployment_id
  let fresh := gw.api st.authHeader endpoint none
  let step := cacheStep 32 (some 300) st.deploymentCache deployment_id now fresh
  { value := step.1
    state := { st with deploymentCache := step.2.1 }
    reqs := if step.2.2 then [Req.api st.authHeader endpoint none] else [] }

/-- `ElasticCloudClient.get_account_info`: when `_account_id` is unset,
perform one request to `/api/v1/account`, store `result.get("id")`, and
return `{"id": _account_id}` (modelled as the optional id value). -/
def get_account_info (gw : Gateway) (st : ClientState) : Res (Option String) :=
  match st.account_id with
  | some a => { value := some a, state := st, reqs := [] }
  | none =>
      let resp := gw.api st.authHeader "/api/v1/account" none
      { value := resp.idField
        state := { st with account_id := resp.idField }
        reqs := [Req.api st.authHeader "/api/v1/account" none] }

/-- `ElasticCloudClient.get_organizations`: uncached request. -/
def get_organizations (gw : Gateway) (st : ClientState) : Res ApiResp :=
  { value := gw.api st.authHeader "/api/v1/organizations" none
    state := st
    reqs := [Req.api st.authHeader "/api/v1/organizations" none] }

/-- Endpoint path built by `get_organization`: the f-string renders
`org_id or self._account_id`, so an absent value prints as `None`. -/
def organizationEndpoint (st : ClientState) (org_id : Option String) : String :=
  "/api/v1/organizations/" ++ pyStrOpt (pyOrOpt org_id st.account_id)

/-- `ElasticCloudClient.get_organization`: uncached request to the path built
by `organizationEndpoint`; it neither triggers lazy account-id resolution
nor consults the stored `org_id` field. -/
def get_organization (gw : Gateway) (st : ClientState) (org_id : Option String) :
    Res ApiResp :=
  let ep := organizationEndpoint st org_id
  { value := gw.api st.authHeader ep none
    state := st
    reqs := [Req.api st.authHeader ep none] }

/-- `ElasticCloudClient.get_organization_members`: like `get_organization`
with the `/members` suffix. -/
def get_organization_members (gw : Gateway) (st : ClientState) (org_id : Option String) :
    Res ApiResp :=
  let ep := organizationEndpoint st org_id ++ "/members"
  { value := gw.api st.authHeader ep none
    state := st
    reqs := [Req.api st.authHeader ep none] }

/-- Billing endpoint of `get_instances_costs`. -/
def instancesCostsEndpoint (org : String) : String :=
  "/api/v2/billing/organizations/" ++ org ++ "/costs/instances"

/-- Billing endpoint of `get_instance_costs`. -/
def instanceCostsEndpoint (org inst : String) : String :=
  "/api/v2/billing/organizations/" ++ (org ++ ("/costs/instances/" ++ (inst ++ "/items")))

/-- Billing endpoint of `get_items_costs`. -/
def itemsCostsEndpoint (org : String) : String :=
  "/api/v2/billing/organizations/" ++ org ++ "/costs/items"

/-- `ElasticCloudClient.get_instances_costs`: UTC-normalizes both dates and
delegates to the cached billing request; the organization id is an explicit
required argument embedded in the endpoint. -/
def get_instances_costs (gw : Gateway) (now : Nat) (st : ClientState)
    (start_date end_date : PyDatetime) (organization_id : String) : Res String :=
  cached_billing_request gw now st (instancesCostsEndpoint organization_id)
    (some (isoformat (astimezoneUTC start_date)))
    (some (isoformat (astimezoneUTC end_date)))

/-- `ElasticCloudClient.get_instance_costs`: per-instance line items. -/
def get_instance_costs (gw : Gateway) (now : Nat) (st : ClientState)
    (start_date end_date : PyDatetime) (organization_id instance_id : String) : Res String :=
  cached_billing_request gw now st (instanceCostsEndpoint organization_id instance_id)
    (some (isoformat (astimezoneUTC start_date)))
    (some (isoformat (astimezoneUTC end_date)))

/-- `ElasticCloudClient.get_items_costs`: all line items for an org. -/
def get_items_costs (gw : Gateway) (now : Nat) (st : ClientState)
    (start_date end_date : PyDatetime) (organization_id : String) : Res String :=
  cached_billing_request gw now st (itemsCostsEndpoint organization_id)
    (some (isoformat (astimezoneUTC start_date)))
    (some (isoformat (astimezoneUTC end_date)))

/-- Concrete configuration used by witnesses: two accounts `a` and `b` with
distinct credentials. -/
def envT : ConfigEnv :=
  { listdir := .ok [".env.a", ".env.b"]
    loadEnv := fun a => if a = "a" then .ok ("keyA", some "orgA") else .ok ("keyB", some "orgB") }

/-- Configuration whose accounts directory is empty. -/
def envEmptyDir : ConfigEnv :=
  { listdir := .ok [], loadEnv := fun _ => .ok ("k", none) }

/-- Configuration whose directory listing fails although every account's env
file would load fine. -/
def envListFail : ConfigEnv :=
  { listdir := .error "boom", loadEnv := fun _ => .ok ("k", none) }

/-- Concrete gateway whose responses encode which credentials and endpoint
produced them, so stale cache hits are observable. -/
def gwT : Gateway :=
  { api := fun h ep _ => { idField := some "acct-1", raw := h ++ "|" ++ ep }
    billing := fun h ep _ => h ++ "|" ++ ep }

/-- Client state for account `a` of `envT`, fresh caches. -/
def stA : ClientState :=
  { account := "a", api_key := "keyA", org_id := some "orgA", account_id := none
    authHeader := "ApiKey keyA", deploymentsCache := [], deploymentCache := []
    billingCache := [] }

/-- Concrete aware datetime 1970-01-01T00:00:00+00:00. -/
def dEpoch : PyDatetime := { wall := 0, offset := 0 }

/-- Concrete aware datetime 1970-01-02T00:00:00+00:00. -/
def dDayTwo : PyDatetime := { wall := 86400, offset := 0 }

example : get_account_credentials envT "a" = .ok ("keyA", some "orgA") := rfl
example : get_account_credentials envT "c" = .error (.accountNotFound "c") := rfl
example : initClient envT "a" = .ok stA := rfl
example : isoformat { wall := 0, offset := 0 } = "1970-01-01T00:00:00+00:00" := by decide
example : isoformat (astimezoneUTC { wall := 3600, offset := 3600 }) =
    "1970-01-01T00:00:00+00:00" := by decide

/-- String append acts as list append on the character data. -/
theorem stringDataAppend (a b : String) : (a ++ b).data = a.data ++ b.data := by
  cases a; cases b; rfl

/-- Strings with equal character data are equal. -/
theorem stringDataEq {a b : String} (h : a.data = b.data) : a = b := by
  cases a; cases b; exact congrArg String.mk h

/-- A cache miss stores the fresh value at the front, truncates to capacity,
and reports that the underlying call ran. -/
theorem cacheStep_miss {κ α : Type} [DecidableEq κ] (m : Nat) (ttl : Option Nat)
    (entries : List (κ × α × Nat)) (k : κ) (now : Nat) (fresh : α)
    (h : entries.find? (fun e => decide (e.1 = k)) = none) :
    cacheStep m ttl entries k now fresh = (fresh, ((k, fresh, now) :: entries).take m, true) := by
  simp [cacheStep, h]

/-- A valid hit at the front returns the stored value without running the
underlying call. -/
theorem cacheStep_hit {κ α : Type} [DecidableEq κ] (m : Nat) (ttl : Option Nat)
    (v : α) (t : Nat) (rest : List (κ × α × Nat)) (k : κ) (now : Nat) (fresh : α)
    (hv : validEntry ttl t now = true) :
    cacheStep m ttl ((k, v, t) :: rest) k now fresh =
      (v, (k, v, t) :: rest.filter (fun e2 => decide (e2.1 ≠ k)), false) := by
  simp [cacheStep, List.find?, hv]

/-- An expired entry at the front is replaced by a freshly computed value and
the underlying call runs. -/
theorem cacheStep_expired {κ α : Type} [DecidableEq κ] (m : Nat) (ttl : Option Nat)
    (v : α) (t : Nat) (rest : List (κ × α × Nat)) (k : κ) (now : Nat) (fresh : α)
    (hv : validEntry ttl t now = false) :
    cacheStep m ttl ((k, v, t) :: rest) k now fresh =
      (fresh, ((k, fresh, now) :: rest.filter (fun e2 => decide (e2.1 ≠ k))).take m, true) := by
  simp [cacheStep, List.find?, hv]

/-- C2: when credential resolution fails for an account name, `switch_account`
raises the wrapped error chained from the resolution failure and returns the
client state completely unchanged — `current_account`, `api_key`, `org_id`,
`_account_id`, the authorization header and all caches are exactly as before
the call; no partial mutation occurs. -/
theorem C2_switch_failure_no_mutation (env : ConfigEnv) (st : ClientState)
    (x : String) (e : CredError) (h : get_account_credentials env x = .error e) :
    switch_account env st x = (.error (.couldNotSwitch x e), st) := by
  simp [switch_account, h]

/-- C2 witness: switching to an account that is not in the accounts directory
fails with the account-not-found cause and leaves the state untouched. -/
theorem C2_witness :
    switch_account envEmptyDir stA "nope" =
      (.error (.couldNotSwitch "nope" (.accountNotFound "nope")), stA) :=
  C2_switch_failure_no_mutation envEmptyDir stA "nope" (.accountNotFound "nope") rfl

/-- C8: `available_accounts` is a total function (it never raises): a
directory-read error yields the explicit error descriptor, and on success the
returned names are exactly those whose `.env.`-prefixed configuration source
is present in the listed directory. -/
theorem C8_available_accounts :
    (∀ e, available_accounts (.error e) = .err ("Failed to list accounts: " ++ e)) ∧
    (∀ (files : List String) (name : String),
      name ∈ accountsOf (available_accounts (.ok files)) ↔ (".env." ++ name) ∈ files) := by
  constructor
  · intro e; rfl
  · intro files name
    simp only [available_accounts, accountsOf, List.mem_map, List.mem_filter]
    constructor
    · rintro ⟨f, ⟨hf, hpre⟩, hdrop⟩
      have hp : ".env.".data <+: f.data := by
        rwa [strStartsWith, List.isPrefixOf_iff_prefix] at hpre
      obtain ⟨t, ht⟩ := hp
      have hname : name.data = t := by
        rw [← hdrop]
        show (String.mk (f.data.drop 5)).data = t
        rw [← ht, show (5 : Nat) = ".env.".data.length from rfl]
        exact List.drop_left _ _
      have hfeq : ".env." ++ name = f := by
        apply stringDataEq
        rw [stringDataAppend, hname, ht]
      rwa [hfeq]
    · intro hf
      refine ⟨".env." ++ name, ⟨hf, ?_⟩, ?_⟩
      · rw [strStartsWith, List.isPrefixOf_iff_prefix, stringDataAppend]
        exact ⟨name.data, rfl⟩
      · apply stringDataEq
        show (".env." ++ name).data.drop 5 = name.data
        rw [stringDataAppend, show (5 : Nat) = ".env.".data.length from rfl]
        exact List.drop_left _ _

/-- C9: when the directory listing fails, `available_accounts` returns the
error dict, `.get("accounts", [])` turns it into the empty list, and so
`get_account_credentials` raises account-not-found for every account name —
even when that account's env file loads fine; no distinct load error
surfaces. -/
theorem C9_listdir_failure_masks_sources (env : ConfigEnv) (msg : String)
    (h : env.listdir = .error msg) (account : String) :
    get_account_credentials env account = .error (.accountNotFound account) := by
  simp [get_account_credentials, available_accounts, accountsOf, h]

/-- C9 witness: with a failing directory listing and a perfectly loadable env
file, resolution still reports account-not-found. -/
theorem C9_witness :
    get_account_credentials envListFail "a" = .error (.accountNotFound "a") ∧
    envListFail.loadEnv "a" = .ok ("k", none) :=
  ⟨C9_listdir_failure_masks_sources envListFail "boom" rfl "a", rfl⟩

/-- C10: with `_account_id` unresolved (`None`), `get_organization` and
`get_organization_members` with no explicit org id do not trigger lazy
account-id resolution: the state is unchanged, the single request is to the
organizations path — not to `/api/v1/account` — and the f-string renders the
absent value as the literal `None` path segment. -/
theorem C10_unresolved_renders_none (gw : Gateway) (st : ClientState)
    (h : st.account_id = none) :
    organizationEndpoint st none = "/api/v1/organizations/None" ∧
    get_organization gw st none =
      { value := gw.api st.authHeader "/api/v1/organizations/None" none
        state := st
        reqs := [Req.api st.authHeader "/api/v1/organizations/None" none] } ∧
    get_organization_members gw st none =
      { value := gw.api st.authHeader "/api/v1/organizations/None/members" none
        state := st
        reqs := [Req.api st.authHeader "/api/v1/organizations/None/members" none] } := by
  have hep : organizationEndpoint st none = "/api/v1/organizations/None" := by
    simp [organizationEndpoint, pyOrOpt, pyStrOpt, h]
  have happ : "/api/v1/organizations/None" ++ "/members" = "/api/v1/organizations/None/members" :=
    rfl
  exact ⟨hep, by simp [get_organization, hep], by simp [get_organization_members, hep, happ]⟩

/-- C10 witness: the concrete fresh client for account `a` (unresolved
account id) sends its organization lookup to the `None` path segment. -/
theorem C10_witness :
    organizationEndpoint stA none = "/api/v1/organizations/None" ∧
    get_organization gwT stA none =
      { value := gwT.api stA.authHeader "/api/v1/organizations/None" none
        state := stA
        reqs := [Req.api stA.authHeader "/api/v1/organizations/None" none] } ∧
    get_organization_members gwT stA none =
      { value := gwT.api stA.authHeader "/api/v1/organizations/None/members" none
        state := stA
        reqs := [Req.api stA.authHeader "/api/v1/organizations/None/members" none] } :=
  C10_unresolved_renders_none gwT stA rfl

/-- Appending equal data around differing middles is injective in the middle. -/
theorem instancesCostsEndpoint_inj {o1 o2 : String}
    (h : instancesCostsEndpoint o1 = instancesCostsEndpoint o2) : o1 = o2 := by
  have hd := congrArg String.data h
  simp only [instancesCostsEndpoint, stringDataAppend, List.append_assoc] at hd
  exact stringDataEq (List.append_cancel_right (List.append_cancel_left hd))

/-- The items-costs endpoint determines its organization id. -/
theorem itemsCostsEndpoint_inj {o1 o2 : String}
    (h : itemsCostsEndpoint o1 = itemsCostsEndpoint o2) : o1 = o2 := by
  have hd := congrArg String.data h
  simp only [itemsCostsEndpoint, stringDataAppend, List.append_assoc] at hd
  exact stringDataEq (List.append_cancel_right (List.append_cancel_left hd))

/-- The per-instance costs endpoint determines its organization id (for a
fixed instance id). -/
theorem instanceCostsEndpoint_inj {o1 o2 i : String}
    (h : instanceCostsEndpoint o1 i = instanceCostsEndpoint o2 i) : o1 = o2 := by
  have hd := congrArg String.data h
  simp only [instanceCostsEndpoint, stringDataAppend, List.append_assoc] at hd
  exact stringDataEq (List.append_cancel_right (List.append_cancel_left hd))

/-- C1 counterexample: the claim that account-switch discards all cached
entries whose key lacks the organization identifier is false in the code.
`get_deployment`'s cache key is the deployment id alone; after a successful
switch from account `a` to account `b`, a repeat `get_deployment` call issues
no network request and returns the value that was fetched and cached under
account `a`'s credentials — which differs from what a fresh request under
account `b`'s credentials would return — and the pre-switch cache entry is
still present after the switch. -/
theorem C1_counterexample :
    let r1 := get_deployment gwT 0 stA "d1"
    let sw := switch_account envT r1.state "b"
    let r2 := get_deployment gwT 10 sw.2 "d1"
    r1.reqs.length = 1 ∧
    sw.2.account = "b" ∧ sw.2.authHeader = "ApiKey keyB" ∧
    sw.2.deploymentCache ≠ [] ∧
    r2.reqs = [] ∧
    r2.value = r1.value ∧
    r2.value.raw = "ApiKey keyA|/api/v1/deployments/d1" ∧
    gwT.api sw.2.authHeader "/api/v1/deployments/d1" none ≠ r2.value := by
  decide

/-- C1 amended: billing cost queries carry the organization id inside the
endpoint string, which is part of the billing cache key, so calls for
different organizations never share an entry; the deployments listing is
keyed by the stored org id. But `switch_account` discards nothing: all three
`alru_cache` stores survive the switch unchanged (only the lazily-resolved
account id is reset), so entries not keyed by an account-distinguishing
component — `get_deployment`, or the deployments listing when both accounts
store the same org id — can be served across accounts. -/
theorem C1_switch_keeps_caches (env : ConfigEnv) (st : ClientState) (a : String)
    (o1 o2 i : String) (h : o1 ≠ o2) :
    ((switch_account env st a).2.deploymentCache = st.deploymentCache ∧
     (switch_account env st a).2.deploymentsCache = st.deploymentsCache ∧
     (switch_account env st a).2.billingCache = st.billingCache) ∧
    instancesCostsEndpoint o1 ≠ instancesCostsEndpoint o2 ∧
    itemsCostsEndpoint o1 ≠ itemsCostsEndpoint o2 ∧
    instanceCostsEndpoint o1 i ≠ instanceCostsEndpoint o2 i := by
  refine ⟨?_, fun hc => h (instancesCostsEndpoint_inj hc),
    fun hc => h (itemsCostsEndpoint_inj hc), fun hc => h (instanceCostsEndpoint_inj hc)⟩
  cases hcred : get_account_credentials env a with
  | ok creds => simp [switch_account, hcred]
  | error e => simp [switch_account, hcred]

/-- C1 witness: concrete switch from `a` to `b` keeps every cache store, and
the three billing endpoints separate two concrete organization ids. -/
theorem C1_witness :
    (((switch_account envT stA "b").2.deploymentCache = stA.deploymentCache ∧
      (switch_account envT stA "b").2.deploymentsCache = stA.deploymentsCache ∧
      (switch_account envT stA "b").2.billingCache = stA.billingCache) ∧
     instancesCostsEndpoint "orgA" ≠ instancesCostsEndpoint "orgB" ∧
     itemsCostsEndpoint "orgA" ≠ itemsCostsEndpoint "orgB" ∧
     instanceCostsEndpoint "orgA" "i1" ≠ instanceCostsEndpoint "orgB" "i1") :=
  C1_switch_keeps_caches envT stA "b" "orgA" "orgB" "i1" (by decide)

/-- A billing-cache miss fully described at the operation level. -/
theorem BR_miss (gw : Gateway) (now : Nat) (st : ClientState) (endpoint : String)
    (s e : Option String)
    (h : st.billingCache.find? (fun en => decide (en.1 = (endpoint, s, e))) = none) :
    cached_billing_request gw now st endpoint s e =
      { value := gw.billing st.authHeader endpoint (billingParams s e)
        state := { st with billingCache :=
          (((endpoint, s, e), gw.billing st.authHeader endpoint (billingParams s e), now)
            :: st.billingCache).take 128 }
        reqs := [Req.billing st.authHeader endpoint (billingParams s e)] } := by
  simp [cached_billing_request, cacheStep_miss _ _ _ _ _ _ h]

/-- A billing-cache hit at the head entry: the billing cache has no
time-to-live, so the entry is valid at every later time. -/
theorem BR_hit (gw : Gateway) (now : Nat) (st : ClientState) (endpoint : String)
    (s e : Option String) (v : String) (t : Nat)
    (rest : List ((String × Option String × Option String) × String × Nat))
    (h : st.billingCache = ((endpoint, s, e), v, t) :: rest) :
    cached_billing_request gw now st endpoint s e =
      { value := v
        state := { st with billingCache :=
          ((endpoint, s, e), v, t) :: rest.filter (fun e2 => decide (e2.1 ≠ (endpoint, s, e))) }
        reqs := [] } := by
  have hstep := cacheStep_hit 128 none v t rest (endpoint, s, e) now
    (gw.billing st.authHeader endpoint (billingParams s e)) rfl
  simp [cached_billing_request, h, hstep]

/-- C3 counterexample: the billing cache of the cost-query operations has no
time-to-live at all (`alru_cache(maxsize=128)` in the source). Two identical
calls within a minute do share one network request, but a third identical
call made more than a day later still serves the cached value and issues no
additional network request — contradicting the claimed fixed TTL on the
order of minutes with a mandatory re-fetch after expiry. -/
theorem C3_counterexample :
    let r1 := get_instances_costs gwT 0 stA dEpoch dDayTwo "orgA"
    let r2 := get_instances_costs gwT 60 r1.state dEpoch dDayTwo "orgA"
    let r3 := get_instances_costs gwT 100000 r2.state dEpoch dDayTwo "orgA"
    r1.reqs.length = 1 ∧ r2.reqs = [] ∧ r2.value = r1.value ∧
    r3.reqs = [] ∧ ¬(r3.reqs.length = 1) := by
  decide

/-- C3 amended: each cost-query operation delegates to the shared cached
billing request, whose cache is bounded at 128 entries but has no expiry:
starting from a state where the key is absent, the first call issues exactly
one network request, and a second and third identical call at any later
times issue no request at all and return the stored value. -/
theorem C3_billing_cache_no_ttl (gw : Gateway) (st : ClientState)
    (endpoint : String) (s e : Option String) (n1 n2 n3 : Nat)
    (h : st.billingCache.find? (fun en => decide (en.1 = (endpoint, s, e))) = none) :
    (∀ d e2 org, get_instances_costs gw n1 st d e2 org =
        cached_billing_request gw n1 st (instancesCostsEndpoint org)
          (some (isoformat (astimezoneUTC d))) (some (isoformat (astimezoneUTC e2)))) ∧
    (∀ d e2 org inst, get_instance_costs gw n1 st d e2 org inst =
        cached_billing_request gw n1 st (instanceCostsEndpoint org inst)
          (some (isoformat (astimezoneUTC d))) (some (isoformat (astimezoneUTC e2)))) ∧
    (∀ d e2 org, get_items_costs gw n1 st d e2 org =
        cached_billing_request gw n1 st (itemsCostsEndpoint org)
          (some (isoformat (astimezoneUTC d))) (some (isoformat (astimezoneUTC e2)))) ∧
    (cached_billing_request gw n1 st endpoint s e).reqs.length = 1 ∧
    (cached_billing_request gw n2
      (cached_billing_request gw n1 st endpoint s e).state endpoint s e).reqs = [] ∧
    (cached_billing_request gw n2
      (cached_billing_request gw n1 st endpoint s e).state endpoint s e).value =
      (cached_billing_request gw n1 st endpoint s e).value ∧
    (cached_billing_request gw n3
      (cached_billing_request gw n2
        (cached_billing_request gw n1 st endpoint s e).state endpoint s e).state
      endpoint s e).reqs = [] ∧
    (cached_billing_request gw n3
      (cached_billing_request gw n2
        (cached_billing_request gw n1 st endpoint s e).state endpoint s e).state
      endpoint s e).value = (cached_billing_request gw n1 st endpoint s e).value := by
  refine ⟨fun _ _ _ => rfl, fun _ _ _ _ => rfl, fun _ _ _ => rfl, ?_⟩
  have h1 := BR_miss gw n1 st endpoint s e h
  have htake : ((((endpoint, s, e),
        gw.billing st.authHeader endpoint (billingParams s e), n1))
        :: st.billingCache).take 128 =
      ((endpoint, s, e), gw.billing st.authHeader endpoint (billingParams s e), n1)
        :: st.billingCache.take 127 := List.take_succ_cons
  have h2 := BR_hit gw n2 (cached_billing_request gw n1 st endpoint s e).state endpoint s e
    (gw.billing st.authHeader endpoint (billingParams s e)) n1
    (st.billingCache.take 127) (by rw [h1]; exact htake)
  have h3 := BR_hit gw n3
    (cached_billing_request gw n2
      (cached_billing_request gw n1 st endpoint s e).state endpoint s e).state endpoint s e
    (gw.billing st.authHeader endpoint (billingParams s e)) n1
    ((st.billingCache.take 127).filter (fun e2 => decide (e2.1 ≠ (endpoint, s, e))))
    (by rw [h2])
  refine ⟨by rw [h1]; rfl, by rw [h2], by rw [h2, h1], by rw [h3], by rw [h3, h1]⟩

/-- C3 witness: the no-TTL billing-cache behaviour at a concrete key and
concrete widely-spaced times starting from the empty cache. -/
theorem C3_witness :
    (∀ d e2 org, get_instances_costs gwT 0 stA d e2 org =
        cached_billing_request gwT 0 stA (instancesCostsEndpoint org)
          (some (isoformat (astimezoneUTC d))) (some (isoformat (astimezoneUTC e2)))) ∧
    (∀ d e2 org inst, get_instance_costs gwT 0 stA d e2 org inst =
        cached_billing_request gwT 0 stA (instanceCostsEndpoint org inst)
          (some (isoformat (astimezoneUTC d))) (some (isoformat (astimezoneUTC e2)))) ∧
    (∀ d e2 org, get_items_costs gwT 0 stA d e2 org =
        cached_billing_request gwT 0 stA (itemsCostsEndpoint org)
          (some (isoformat (astimezoneUTC d))) (some (isoformat (astimezoneUTC e2)))) ∧
    (cached_billing_request gwT 0 stA "/x" (some "a") (some "b")).reqs.length = 1 ∧
    (cached_billing_request gwT 60
      (cached_billing_request gwT 0 stA "/x" (some "a") (some "b")).state
      "/x" (some "a") (some "b")).reqs = [] ∧
    (cached_billing_request gwT 60
      (cached_billing_request gwT 0 stA "/x" (some "a") (some "b")).state
      "/x" (some "a") (some "b")).value =
      (cached_billing_request gwT 0 stA "/x" (some "a") (some "b")).value ∧
    (cached_billing_request gwT 100000
      (cached_billing_request gwT 60
        (cached_billing_request gwT 0 stA "/x" (some "a") (some "b")).state
        "/x" (some "a") (some "b")).state "/x" (some "a") (some "b")).reqs = [] ∧
    (cached_billing_request gwT 100000
      (cached_billing_request gwT 60
        (cached_billing_request gwT 0 stA "/x" (some "a") (some "b")).state
        "/x" (some "a") (some "b")).state "/x" (some "a") (some "b")).value =
      (cached_billing_request gwT 0 stA "/x" (some "a") (some "b")).value :=
  C3_billing_cache_no_ttl gwT stA "/x" (some "a") (some "b") 0 60 100000 rfl

/-- A deployment-details cache miss fully described at the operation level. -/
theorem GD_miss (gw : Gateway) (now : Nat) (st : ClientState) (id : String)
    (h : st.deploymentCache.find? (fun en => decide (en.1 = id)) = none) :
    get_deployment gw now st id =
      { value := gw.api st.authHeader ("/api/v1/deployments/" ++ id) none
        state := { st with deploymentCache :=
          ((id, gw.api st.authHeader ("/api/v1/deployments/" ++ id) none, now)
            :: st.deploymentCache).take 32 }
        reqs := [Req.api st.authHeader ("/api/v1/deployments/" ++ id) none] } := by
  simp [get_deployment, cacheStep_miss _ _ _ _ _ _ h]

/-- A deployment-details cache hit at the head entry within the 300-second
time-to-live window. -/
theorem GD_hit (gw : Gateway) (now : Nat) (st : ClientState) (id : String)
    (v : ApiResp) (t : Nat) (rest : List (String × ApiResp × Nat))
    (hc : st.deploymentCache = (id, v, t) :: rest) (hv : now < t + 300) :
    get_deployment gw now st id =
      { value := v
        state := { st with deploymentCache :=
          (id, v, t) :: rest.filter (fun e2 => decide (e2.1 ≠ id)) }
        reqs := [] } := by
  have hstep := cacheStep_hit 32 (some 300) v t rest id now
    (gw.api st.authHeader ("/api/v1/deployments/" ++ id) none)
    (by simp [validEntry, hv])
  simp [get_deployment, hc, hstep]

/-- An expired head entry of the deployment-details cache is re-fetched. -/
theorem GD_expired (gw : Gateway) (now : Nat) (st : ClientState) (id : String)
    (v : ApiResp) (t : Nat) (rest : List (String × ApiResp × Nat))
    (hc : st.deploymentCache = (id, v, t) :: rest) (hv : t + 300 ≤ now) :
    get_deployment gw now st id =
      { value := gw.api st.authHeader ("/api/v1/deployments/" ++ id) none
        state := { st with deploymentCache :=
          ((id, gw.api st.authHeader ("/api/v1/deployments/" ++ id) none, now)
            :: rest.filter (fun e2 => decide (e2.1 ≠ id))).take 32 }
        reqs := [Req.api st.authHeader ("/api/v1/deployments/" ++ id) none] } := by
  have hstep := cacheStep_expired 32 (some 300) v t rest id now
    (gw.api st.authHeader ("/api/v1/deployments/" ++ id) none)
    (by simp [validEntry]; omega)
  simp [get_deployment, hc, hstep]

/-- C4 counterexample: `get_deployment` is not cached under a no-expiry
policy — the source decorates it with `alru_cache(maxsize=32, ttl=300)`. A
repeat call with the same id 400 seconds later issues a fresh network
request instead of returning the stored value, contradicting the claimed
process-lifetime caching "regardless of elapsed time". -/
theorem C4_counterexample :
    let r1 := get_deployment gwT 0 stA "dep1"
    let r2 := get_deployment gwT 400 r1.state "dep1"
    r1.reqs.length = 1 ∧ r2.reqs.length = 1 ∧ ¬(r2.reqs = []) := by
  decide

/-- C4 amended: `get_deployment(id)` is cached in a bounded-size (32 entries)
cache with a 300-second time-to-live: starting from a state without the id,
the first call issues one request; a repeat call strictly within 300 seconds
of it returns the stored value with no network request; a repeat call at or
after 300 elapsed seconds issues exactly one fresh request. -/
theorem C4_deployment_cache_ttl (gw : Gateway) (st : ClientState) (id : String)
    (t1 t2 : Nat)
    (h : st.deploymentCache.find? (fun en => decide (en.1 = id)) = none) :
    (get_deployment gw t1 st id).reqs.length = 1 ∧
    (t2 < t1 + 300 →
      (get_deployment gw t2 (get_deployment gw t1 st id).state id).reqs = [] ∧
      (get_deployment gw t2 (get_deployment gw t1 st id).state id).value =
        (get_deployment gw t1 st id).value) ∧
    (t1 + 300 ≤ t2 →
      (get_deployment gw t2 (get_deployment gw t1 st id).state id).reqs.length = 1) := by
  have h1 := GD_miss gw t1 st id h
  have htake : ((id, gw.api st.authHeader ("/api/v1/deployments/" ++ id) none, t1)
        :: st.deploymentCache).take 32 =
      (id, gw.api st.authHeader ("/api/v1/deployments/" ++ id) none, t1)
        :: st.deploymentCache.take 31 := List.take_succ_cons
  refine ⟨by rw [h1]; rfl, fun hlt => ?_, fun hge => ?_⟩
  · have h2 := GD_hit gw t2 (get_deployment gw t1 st id).state id
      (gw.api st.authHeader ("/api/v1/deployments/" ++ id) none) t1
      (st.deploymentCache.take 31) (by rw [h1]; exact htake) hlt
    exact ⟨by rw [h2], by rw [h2, h1]⟩
  · have h2 := GD_expired gw t2 (get_deployment gw t1 st id).state id
      (gw.api st.authHeader ("/api/v1/deployments/" ++ id) none) t1
      (st.deploymentCache.take 31) (by rw [h1]; exact htake) hge
    rw [h2]; rfl

/-- C4 witness: the TTL-bounded deployment cache at concrete times 0, 100
(hit inside the window) and the first call from the empty cache. -/
theorem C4_witness :
    (get_deployment gwT 0 stA "dep1").reqs.length = 1 ∧
    (100 < 0 + 300 →
      (get_deployment gwT 100 (get_deployment gwT 0 stA "dep1").state "dep1").reqs = [] ∧
      (get_deployment gwT 100 (get_deployment gwT 0 stA "dep1").state "dep1").value =
        (get_deployment gwT 0 stA "dep1").value) ∧
    (0 + 300 ≤ 100 →
      (get_deployment gwT 100 (get_deployment gwT 0 stA "dep1").state "dep1").reqs.length = 1) :=
  C4_deployment_cache_ttl gwT stA "dep1" 0 100 rfl

/-- C5: `get_account_info` returns the cached resolved account id when
present (no request); otherwise it performs exactly one request to
`/api/v1/account`, stores `result.get("id")`, and returns it, so a repeat
call after a successful resolution is request-free and idempotent. After a
successful `switch_account` the resolved id is reset to `None`, so the next
call performs exactly one fresh resolution under the new credentials; and no
domain operation ever writes the resolved account id — resolution through
`get_account_info` is the only way it is populated. -/
theorem C5_lazy_account_id (gw : Gateway) (st : ClientState) (a : String)
    (env : ConfigEnv) (b : String) :
    (∀ x, st.account_id = some x →
      get_account_info gw st = { value := some x, state := st, reqs := [] }) ∧
    (st.account_id = none →
      (get_account_info gw st).reqs = [Req.api st.authHeader "/api/v1/account" none] ∧
      (get_account_info gw st).state =
        { st with account_id := (gw.api st.authHeader "/api/v1/account" none).idField } ∧
      (get_account_info gw st).value = (gw.api st.authHeader "/api/v1/account" none).idField ∧
      ((gw.api st.authHeader "/api/v1/account" none).idField = some a →
        get_account_info gw (get_account_info gw st).state =
          { value := some a, state := (get_account_info gw st).state, reqs := [] })) ∧
    (∀ st2, switch_account env st b = (.ok (), st2) →
      st2.account_id = none ∧
      (get_account_info gw st2).reqs = [Req.api st2.authHeader "/api/v1/account" none]) ∧
    ((∀ now org_id, (get_deployments_cached gw now st org_id).state.account_id = st.account_id) ∧
     (∀ now, (get_deployments gw now st).state.account_id = st.account_id) ∧
     (∀ now id, (get_deployment gw now st id).state.account_id = st.account_id) ∧
     (∀ now ep s e, (cached_billing_request gw now st ep s e).state.account_id = st.account_id) ∧
     (∀ o, (get_organization gw st o).state.account_id = st.account_id) ∧
     (∀ o, (get_organization_members gw st o).state.account_id = st.account_id) ∧
     (get_organizations gw st).state.account_id = st.account_id) := by
  refine ⟨?_, ?_, ?_, fun _ _ => rfl, fun _ => rfl, fun _ _ => rfl, fun _ _ _ _ => rfl,
    fun _ => rfl, fun _ => rfl, rfl⟩
  · intro x hx
    simp [get_account_info, hx]
  · intro h
    have hst : (get_account_info gw st).state =
        { st with account_id := (gw.api st.authHeader "/api/v1/account" none).idField } := by
      simp [get_account_info, h]
    refine ⟨by simp [get_account_info, h], hst, by simp [get_account_info, h], fun hid => ?_⟩
    rw [hst, hid]
    simp [get_account_info]
  · intro st2 hsw
    cases hcred : get_account_credentials env b with
    | ok creds =>
        simp only [switch_account, hcred, Prod.mk.injEq] at hsw
        obtain ⟨-, hst2⟩ := hsw
        subst hst2
        exact ⟨rfl, by simp [get_account_info]⟩
    | error e =>
        simp [switch_account, hcred] at hsw

/-- C5 witness: the fresh client resolves lazily once under its own header
and the repeat call is request-free with the same id. -/
theorem C5_witness :
    stA.account_id = none ∧
    (get_account_info gwT stA).reqs = [Req.api "ApiKey keyA" "/api/v1/account" none] ∧
    get_account_info gwT (get_account_info gwT stA).state =
      { value := some "acct-1", state := (get_account_info gwT stA).state, reqs := [] } := by
  have h := (C5_lazy_account_id gwT stA "acct-1" envT "b").2.1 rfl
  exact ⟨rfl, h.1, h.2.2.2 rfl⟩

/-- C6 counterexample: the claimed precedence (explicit argument, else the
current account's stored `org_id`, else the lazily-resolved account id) is
false for `get_organization`: with a stored `org_id` of `ORG` and a resolved
account id of `ACC`, the call with no explicit argument requests
`/api/v1/organizations/ACC`, skipping the stored `org_id` entirely. -/
theorem C6_counterexample :
    (get_organization gwT { stA with org_id := some "ORG", account_id := some "ACC" }
        none).reqs =
      [Req.api "ApiKey keyA" "/api/v1/organizations/ACC" none] ∧
    organizationEndpoint { stA with org_id := some "ORG", account_id := some "ACC" } none ≠
      "/api/v1/organizations/ORG" := by
  decide

/-- C6 amended: each operation has its own fixed organization-id source
rather than one shared precedence chain: the deployments listing always uses
the stored `org_id` (with no fallback to the resolved account id); the
organization lookups use the explicit argument if truthy, else the
already-resolved account id (never the stored `org_id`, and without
triggering resolution); the billing cost queries require the organization id
as an explicit argument embedded in the endpoint. Each returns the
provider's parsed response unmodified. -/
theorem C6_per_operation_org_resolution (gw : Gateway) (now : Nat) (st : ClientState)
    (o : String) (d e : PyDatetime) (inst : String) (ho : o ≠ "") :
    get_deployments gw now st = get_deployments_cached gw now st st.org_id ∧
    organizationEndpoint st (some o) = "/api/v1/organizations/" ++ o ∧
    organizationEndpoint st none = "/api/v1/organizations/" ++ pyStrOpt st.account_id ∧
    (get_organization gw st none).state = st ∧
    (get_organization gw st none).value =
      gw.api st.authHeader (organizationEndpoint st none) none ∧
    get_instances_costs gw now st d e o =
      cached_billing_request gw now st (instancesCostsEndpoint o)
        (some (isoformat (astimezoneUTC d))) (some (isoformat (astimezoneUTC e))) ∧
    get_items_costs gw now st d e o =
      cached_billing_request gw now st (itemsCostsEndpoint o)
        (some (isoformat (astimezoneUTC d))) (some (isoformat (astimezoneUTC e))) ∧
    get_instance_costs gw now st d e o inst =
      cached_billing_request gw now st (instanceCostsEndpoint o inst)
        (some (isoformat (astimezoneUTC d))) (some (isoformat (astimezoneUTC e))) := by
  refine ⟨rfl, ?_, rfl, rfl, rfl, rfl, rfl, rfl⟩
  simp [organizationEndpoint, pyOrOpt, pyStrOpt, ho]

/-- C6 witness: the per-operation resolution facts at a concrete non-empty
organization id. -/
theorem C6_witness :
    get_deployments gwT 0 stA = get_deployments_cached gwT 0 stA stA.org_id ∧
    organizationEndpoint stA (some "orgX") = "/api/v1/organizations/" ++ "orgX" :=
  let h := C6_per_operation_org_resolution gwT 0 stA "orgX" dEpoch dDayTwo "i1" (by decide)
  ⟨h.1, h.2.1⟩

/-- C7: two date ranges denoting the same UTC interval produce the same
UTC-normalized ISO strings, hence identical outbound `from`/`to` request
parameters, identical billing cache keys, and entirely identical behaviour
of all three cost-query operations. -/
theorem C7_utc_normalization (gw : Gateway) (now : Nat) (st : ClientState)
    (d1 d2 e1 e2 : PyDatetime) (org inst : String)
    (hd : instant d1 = instant d2) (he : instant e1 = instant e2) :
    isoformat (astimezoneUTC d1) = isoformat (astimezoneUTC d2) ∧
    isoformat (astimezoneUTC e1) = isoformat (astimezoneUTC e2) ∧
    billingParams (some (isoformat (astimezoneUTC d1))) (some (isoformat (astimezoneUTC e1))) =
      billingParams (some (isoformat (astimezoneUTC d2))) (some (isoformat (astimezoneUTC e2))) ∧
    ((instancesCostsEndpoint org, some (isoformat (astimezoneUTC d1)),
        some (isoformat (astimezoneUTC e1))) =
      (instancesCostsEndpoint org, some (isoformat (astimezoneUTC d2)),
        some (isoformat (astimezoneUTC e2)))) ∧
    get_instances_costs gw now st d1 e1 org = get_instances_costs gw now st d2 e2 org ∧
    get_instance_costs gw now st d1 e1 org inst =
      get_instance_costs gw now st d2 e2 org inst ∧
    get_items_costs gw now st d1 e1 org = get_items_costs gw now st d2 e2 org := by
  have hdd : astimezoneUTC d1 = astimezoneUTC d2 := by simp [astimezoneUTC, hd]
  have hee : astimezoneUTC e1 = astimezoneUTC e2 := by simp [astimezoneUTC, he]
  refine ⟨by rw [hdd], by rw [hee], by rw [hdd, hee], by rw [hdd, hee], ?_, ?_, ?_⟩
  · simp only [get_instances_costs, hdd, hee]
  · simp only [get_instance_costs, hdd, hee]
  · simp only [get_items_costs, hdd, hee]

/-- C7 witness: 01:00 at offset +01:00 and 00:00 UTC denote the same instant
and yield identical cost-query calls. -/
theorem C7_witness :
    get_instances_costs gwT 0 stA { wall := 3600, offset := 3600 }
      { wall := 90000, offset := 3600 } "orgA" =
    get_instances_costs gwT 0 stA dEpoch dDayTwo "orgA" :=
  (C7_utc_normalization gwT 0 stA { wall := 3600, offset := 3600 } dEpoch
    { wall := 90000, offset := 3600 } dDayTwo "orgA" "i1" (by decide) (by decide)).2.2.2.2.1
